import Mathlib

/-!
A shallow embedding of the swipe-position core of react-native-swipeable-item
(src/index.tsx).  JavaScript numbers are modelled as exact rationals extended
with the IEEE special values Infinity, -Infinity and NaN, so that the
behaviour of Math.max over an empty spread, the truthiness test in the
JavaScript expression (x || 0), and the clamp arithmetic are captured exactly.
The gesture / animation / promise machinery is modelled as an event-driven
state machine; the spring integrator itself is an external collaborator, so
only its documented contract is modelled: a running animation, when retargeted
or overwritten by a direct write, fires its completion callback with the
natural-completion flag set to false, and fires it with true when it settles.
-/

/-- JavaScript number: an exact rational or one of the IEEE special values. -/
inductive JsNum where
  | finite (q : ℚ)
  | posInf
  | negInf
  | nan
deriving DecidableEq

/-- JavaScript unary minus. -/
def jneg : JsNum → JsNum
  | .finite q => .finite (-q)
  | .posInf => .negInf
  | .negInf => .posInf
  | .nan => .nan

/-- JavaScript addition. -/
def jadd : JsNum → JsNum → JsNum
  | .nan, _ => .nan
  | _, .nan => .nan
  | .posInf, .negInf => .nan
  | .negInf, .posInf => .nan
  | .posInf, _ => .posInf
  | _, .posInf => .posInf
  | .negInf, _ => .negInf
  | _, .negInf => .negInf
  | .finite a, .finite b => .finite (a + b)

/-- JavaScript subtraction. -/
def jsub : JsNum → JsNum → JsNum
  | .nan, _ => .nan
  | _, .nan => .nan
  | .posInf, .posInf => .nan
  | .negInf, .negInf => .nan
  | .posInf, _ => .posInf
  | _, .posInf => .negInf
  | .negInf, _ => .negInf
  | _, .negInf => .posInf
  | .finite a, .finite b => .finite (a - b)

/-- JavaScript division (sign of zero is not tracked; zero is treated as +0). -/
def jdiv : JsNum → JsNum → JsNum
  | .nan, _ => .nan
  | _, .nan => .nan
  | .posInf, .posInf => .nan
  | .posInf, .negInf => .nan
  | .negInf, .posInf => .nan
  | .negInf, .negInf => .nan
  | .finite _, .posInf => .finite 0
  | .finite _, .negInf => .finite 0
  | .posInf, .finite b => if 0 ≤ b then .posInf else .negInf
  | .negInf, .finite b => if 0 ≤ b then .negInf else .posInf
  | .finite a, .finite b =>
      if b = 0 then (if a = 0 then .nan else if 0 < a then .posInf else .negInf)
      else .finite (a / b)

/-- JavaScript Math.abs. -/
def jabs : JsNum → JsNum
  | .finite q => .finite |q|
  | .nan => .nan
  | _ => .posInf

/-- The JavaScript strict comparison a less-than b (false on NaN operands). -/
def jlt : JsNum → JsNum → Bool
  | .nan, _ => false
  | _, .nan => false
  | .finite a, .finite b => decide (a < b)
  | .negInf, .negInf => false
  | .negInf, _ => true
  | _, .negInf => false
  | .posInf, _ => false
  | _, .posInf => true

/-- The JavaScript comparison a less-or-equal b (false on NaN operands). -/
def jle : JsNum → JsNum → Bool
  | .nan, _ => false
  | _, .nan => false
  | .finite a, .finite b => decide (a ≤ b)
  | .negInf, _ => true
  | _, .negInf => false
  | _, .posInf => true
  | .posInf, _ => false

/-- JavaScript strict equality on numbers (NaN is equal to nothing). -/
def jsEq : JsNum → JsNum → Bool
  | .nan, _ => false
  | _, .nan => false
  | .finite a, .finite b => decide (a = b)
  | .posInf, .posInf => true
  | .negInf, .negInf => true
  | _, _ => false

/-- JavaScript Math.max on two numbers (NaN absorbs). -/
def jmax : JsNum → JsNum → JsNum
  | .nan, _ => .nan
  | _, .nan => .nan
  | .posInf, _ => .posInf
  | _, .posInf => .posInf
  | .negInf, b => b
  | a, .negInf => a
  | .finite a, .finite b => .finite (max a b)

/-- JavaScript Math.min on two numbers (NaN absorbs). -/
def jmin : JsNum → JsNum → JsNum
  | .nan, _ => .nan
  | _, .nan => .nan
  | .negInf, _ => .negInf
  | _, .negInf => .negInf
  | .posInf, b => b
  | a, .posInf => a
  | .finite a, .finite b => .finite (min a b)

/-- JavaScript truthiness of a number: 0 and NaN are falsy. -/
def jsTruthy : JsNum → Bool
  | .finite q => decide (q ≠ 0)
  | .nan => false
  | _ => true

/-- The JavaScript short-circuit expression a or-else b: a when truthy, else b. -/
def jsOr (a b : JsNum) : JsNum := if jsTruthy a then a else b

/-- Number.MAX_VALUE, the largest finite IEEE double, as an exact rational. -/
def numberMaxValue : ℚ := 2 ^ 1024 - 2 ^ 971

/-- Which side of the row is settled open (the OpenDirection enum). -/
inductive OpenDirection where
  | left
  | right
  | none
deriving DecidableEq

/-- The configuration props consumed by the swipe core, after defaulting
(snapPointsLeft / snapPointsRight default to empty lists, overSwipe to 20,
activationThreshold to 20, swipeDamping to 10). -/
structure Config where
  snapPointsLeft : List ℚ
  snapPointsRight : List ℚ
  overSwipe : ℚ
  activationThreshold : ℚ
  swipeDamping : ℚ
deriving DecidableEq

/-- The JavaScript spread call Math.max(...xs): left fold of the binary max
starting from -Infinity, which is what Math.max returns on no arguments. -/
def mathMaxList (xs : List ℚ) : JsNum :=
  xs.foldl (fun acc x => jmax acc (.finite x)) .negInf

/-- Source line 129: maxSnapPointLeft = -1 * (Math.max(...snapPointsLeft) || 0). -/
def maxSnapPointLeft (c : Config) : JsNum :=
  jneg (jsOr (mathMaxList c.snapPointsLeft) (.finite 0))

/-- Source line 130: maxSnapPointRight = Math.max(...snapPointsRight) || 0. -/
def maxSnapPointRight (c : Config) : JsNum :=
  jsOr (mathMaxList c.snapPointsRight) (.finite 0)

/-- Source line 132: maxTranslateLeft = maxSnapPointLeft - overSwipe. -/
def maxTranslateLeft (c : Config) : JsNum :=
  jsub (maxSnapPointLeft c) (.finite c.overSwipe)

/-- Source line 133: maxTranslateRight = maxSnapPointRight + overSwipe. -/
def maxTranslateRight (c : Config) : JsNum :=
  jadd (maxSnapPointRight c) (.finite c.overSwipe)

/-- Follows the spec's words (section 3, Derived Snap Set):
maxSnapLeft = -max(snapPointsLeft united with 0). -/
def spec_maxSnapLeft (xs : List ℚ) : ℚ := -(xs.foldl max 0)

/-- Follows the spec's words (section 3, Derived Snap Set):
maxSnapRight = max(snapPointsRight united with 0). -/
def spec_maxSnapRight (xs : List ℚ) : ℚ := xs.foldl max 0

/-- Follows the spec's words: minOffset = maxSnapLeft - overSwipe. -/
def spec_minOffset (c : Config) : ℚ := spec_maxSnapLeft c.snapPointsLeft - c.overSwipe

/-- Follows the spec's words: maxOffset = maxSnapRight + overSwipe. -/
def spec_maxOffset (c : Config) : ℚ := spec_maxSnapRight c.snapPointsRight + c.overSwipe

/-- Source line 121: swipingLeft, true when the animated position is negative. -/
def swipingLeft (pos : JsNum) : Bool := jlt pos (.finite 0)

/-- Source line 125: swipingRight, true when the animated position is positive. -/
def swipingRight (pos : JsNum) : Bool := jlt (.finite 0) pos

/-- Source lines 135-139: percentOpenLeft as a function of the animated
position, i.e. abs(pos / maxSnapPointLeft) while swiping left, else 0. -/
def percentOpenLeft (c : Config) (pos : JsNum) : JsNum :=
  if swipingLeft pos then jabs (jdiv pos (maxSnapPointLeft c)) else .finite 0

/-- Source lines 140-144: percentOpenRight as a function of the animated
position, i.e. abs(pos / maxSnapPointRight) while swiping right, else 0. -/
def percentOpenRight (c : Config) (pos : JsNum) : JsNum :=
  if swipingRight pos then jabs (jdiv pos (maxSnapPointRight c)) else .finite 0

/-- Source line 146: hasLeft, the truthiness of snapPointsLeft.length. -/
def hasLeft (c : Config) : Bool := !c.snapPointsLeft.isEmpty

/-- Source line 147: hasRight, the truthiness of snapPointsRight.length. -/
def hasRight (c : Config) : Bool := !c.snapPointsRight.isEmpty

/-- Source lines 149-152: the left pan activation offset, -activationThreshold
when the left side has snap points or the row is open to the right, else
-Number.MAX_VALUE.  All branches are finite doubles, so the value is a rational. -/
def activeOffsetL (c : Config) (dir : OpenDirection) : ℚ :=
  if hasLeft c || decide (dir = OpenDirection.right) then -c.activationThreshold
  else -numberMaxValue

/-- Source lines 153-156: the right pan activation offset, activationThreshold
when the right side has snap points or the row is open to the left, else
Number.MAX_VALUE. -/
def activeOffsetR (c : Config) (dir : OpenDirection) : ℚ :=
  if hasRight c || decide (dir = OpenDirection.left) then c.activationThreshold
  else numberMaxValue

/-- Modelled from the spec (sections 4.2 and 6): the pan gesture recognizer is
an external collaborator configured with activeOffsetX of the pair
(activeOffsetL, activeOffsetR); a horizontal pan activates once the finger
travel leaves that window. -/
def panActivates (c : Config) (dir : OpenDirection) (t : ℚ) : Prop :=
  t ≤ activeOffsetL c dir ∨ activeOffsetR c dir ≤ t

instance (c : Config) (dir : OpenDirection) (t : ℚ) :
    Decidable (panActivates c dir t) := by
  unfold panActivates
  infer_instance

/-- Source lines 249-256: allSnapPoints, the left points negated, then the
right points, then the always-present closed point 0. -/
def allSnapPoints (c : Config) : List ℚ :=
  (c.snapPointsLeft.map (fun p => p * (-1)) ++ c.snapPointsRight) ++ [0]

/-- Source lines 258-261: one step of the reduce choosing the accumulator or
the current point, whichever is strictly closer to the velocity-modified
position. -/
def snapStep (v : JsNum) (acc : JsNum) (cur : ℚ) : JsNum :=
  if jlt (jabs (jsub v (.finite cur))) (jabs (jsub v acc)) then .finite cur else acc

/-- Source lines 258-262: closestSnapPoint, the reduce over allSnapPoints with
the accumulator starting at Infinity. -/
def closestSnapPoint (c : Config) (v : JsNum) : JsNum :=
  (allSnapPoints c).foldl (snapStep v) .posInf

/-- The same strictly-closer scan performed over rationals with a rational
starting accumulator; used to relate the reduce to a pure argmin. -/
def firstMinAux (v a : ℚ) (xs : List ℚ) : ℚ :=
  xs.foldl (fun acc cur => if |v - cur| < |v - acc| then cur else acc) a

/-- t is the earliest minimizer of the distance to v during a left-to-right
scan of xs: it occurs in xs, no element is strictly closer to v, and every
element before its first occurrence is strictly farther. -/
def IsFirstArgmin (v : ℚ) (xs : List ℚ) (t : ℚ) : Prop :=
  ∃ l1 l2, xs = l1 ++ t :: l2 ∧ (∀ s ∈ xs, |v - t| ≤ |v - s|) ∧
    ∀ s ∈ l1, |v - t| < |v - s|

/-- Source lines 265-270: the open direction reported for a settled snap
point: NONE at 0, RIGHT when positive, LEFT otherwise. -/
def dirOfSnap (snap : JsNum) : OpenDirection :=
  if jsEq snap (.finite 0) then .none
  else if jlt (.finite 0) snap then .right
  else .left

/-- The completion callback a spring animation was started with: either the
promise-resolution callback of an imperative openLeft / openRight / close call
(source lines 172-210), which resolves its promise only when the finished flag
is true, or the gesture-release onComplete closure (source lines 264-272),
which ignores the flag and always reports the settle. -/
inductive SpringCallback where
  | resolveIfFinished (pid : Nat)
  | gestureComplete (snap : JsNum)
deriving DecidableEq

/-- An in-flight spring animation on the shared position value: the target
offset and the completion callback registered with withSpring. -/
structure Anim where
  target : JsNum
  callback : SpringCallback
deriving DecidableEq

/-- The observable state of one row: the shared animated position, the shared
gesture-active flag, the openDirection React state, the gesture context
startX, the in-flight animation if any, a counter allocating promise
identifiers, the list of promise identifiers resolved so far (most recent
first), and the log of onChange notifications (most recent first). -/
structure RowState where
  pos : JsNum
  isGestureActive : Bool
  openDirection : OpenDirection
  startX : JsNum
  anim : Option Anim
  nextPid : Nat
  resolves : List Nat
  changes : List (OpenDirection × JsNum)
deriving DecidableEq

/-- Run a spring completion callback with the given natural-completion flag.
resolveIfFinished resolves its promise only when the flag is true (source
lines 174-176); the gesture onComplete closure takes no parameter, so it runs
its body regardless, setting openDirection and firing onChange through
onAnimationEnd (source lines 221-224 and 264-272). -/
def runCallback (cb : SpringCallback) (isFinished : Bool) (s : RowState) : RowState :=
  match cb with
  | .resolveIfFinished pid =>
      if isFinished then { s with resolves := pid :: s.resolves } else s
  | .gestureComplete snap =>
      { s with openDirection := dirOfSnap snap,
               changes := (dirOfSnap snap, jabs snap) :: s.changes }

/-- Modelled from the spec (section 2, animation primitive contract): when the
in-flight animation is interrupted, its completion callback fires with the
natural-completion flag false. -/
def cancelAnim (s : RowState) : RowState :=
  match s.anim with
  | Option.none => s
  | some a => runCallback a.callback false { s with anim := Option.none }

/-- Assigning a withSpring animation to the shared position value: any
in-flight animation is interrupted, then the new animation is in flight. -/
def startSpring (target : JsNum) (cb : SpringCallback) (s : RowState) : RowState :=
  { cancelAnim s with anim := some { target := target, callback := cb } }

/-- Assigning a plain value to the shared position value: any in-flight
animation is interrupted and the position changes immediately. -/
def setValue (v : JsNum) (s : RowState) : RowState :=
  { cancelAnim s with pos := v }

/-- The common body of openLeft, openRight and close (source lines 172-210):
allocate a fresh promise and spring the position toward the target, resolving
the promise only on natural completion. -/
def openSide (target : JsNum) (s : RowState) : RowState :=
  startSpring target (.resolveIfFinished s.nextPid) { s with nextPid := s.nextPid + 1 }

/-- The external events driving one row: the pan gesture stream (onStart,
onActive, onEnd of source lines 230-280), the imperative handle calls (source
lines 212-219), and the natural settle of the in-flight spring animation. -/
inductive Event where
  | gestureStart
  | gestureUpdate (translationX : JsNum)
  | gestureEnd (velocityX : JsNum)
  | imperativeOpen (dir : OpenDirection) (snapPoint : Option JsNum)
  | imperativeClose
  | settle

/-- Source lines 234-241: the clamped value applied by onActive,
Math.min(Math.max(maxTranslateLeft, translationX + startX), maxTranslateRight). -/
def clampActive (c : Config) (translationX startX : JsNum) : JsNum :=
  jmin (jmax (maxTranslateLeft c) (jadd translationX startX)) (maxTranslateRight c)

/-- The transition function of one row under one external event, translated
from src/index.tsx lines 172-281. -/
def step (c : Config) (s : RowState) (e : Event) : RowState :=
  match e with
  | .gestureStart => { s with startX := s.pos, isGestureActive := true }
  | .gestureUpdate t => setValue (clampActive c t s.startX) s
  | .gestureEnd v =>
      let s1 := { s with isGestureActive := false }
      let vmp := jadd s1.pos (jdiv v (.finite c.swipeDamping))
      let target := closestSnapPoint c vmp
      if jsEq s1.pos target then runCallback (.gestureComplete target) true s1
      else startSpring target (.gestureComplete target) s1
  | .imperativeOpen d sp =>
      match d with
      | .left => openSide (sp.getD (maxSnapPointLeft c)) s
      | .right => openSide (sp.getD (maxSnapPointRight c)) s
      | .none => openSide (.finite 0) s
  | .imperativeClose => openSide (.finite 0) s
  | .settle =>
      match s.anim with
      | Option.none => s
      | some a => runCallback a.callback true { s with anim := Option.none, pos := a.target }

/-- Run a row through a list of external events. -/
def run (c : Config) (s : RowState) (evs : List Event) : RowState :=
  evs.foldl (step c) s

/-- The state of a freshly mounted row: closed, no gesture, no animation. -/
def initState : RowState :=
  { pos := .finite 0, isGestureActive := false, openDirection := .none,
    startX := .finite 0, anim := Option.none, nextPid := 0,
    resolves := [], changes := [] }

/-- A configuration with both sides empty and all numeric props at their
defaults; used to exhibit the degenerate empty-side behaviour. -/
def emptyCfg : Config :=
  { snapPointsLeft := [], snapPointsRight := [],
    overSwipe := 20, activationThreshold := 20, swipeDamping := 10 }

/-- The configuration of the spec's worked examples: snapPointsLeft empty,
snapPointsRight 80 and 160, numeric props at their defaults. -/
def rightCfg : Config :=
  { snapPointsLeft := [], snapPointsRight := [80, 160],
    overSwipe := 20, activationThreshold := 20, swipeDamping := 10 }

/-- A configuration with one snap point on each side. -/
def bothCfg : Config :=
  { snapPointsLeft := [50], snapPointsRight := [80],
    overSwipe := 20, activationThreshold := 20, swipeDamping := 10 }

/-- A row settled open to the right at offset 80, with no gesture and no
animation in flight. -/
def openRight80 : RowState :=
  { pos := .finite 80, isGestureActive := false, openDirection := .right,
    startX := .finite 0, anim := Option.none, nextPid := 0,
    resolves := [], changes := [] }

/-- A row at offset 60 with no gesture active and no animation in flight,
as left behind by a drag that has just received its release event. -/
def at60 : RowState :=
  { pos := .finite 60, isGestureActive := false, openDirection := .none,
    startX := .finite 0, anim := Option.none, nextPid := 0,
    resolves := [], changes := [] }

/-- The bookkeeping invariant of reachable row states: resolved promise
identifiers are distinct and below the allocation counter, and the promise
callback of the in-flight animation, if any, is for an unresolved identifier
below the counter. -/
def GoodState (s : RowState) : Prop :=
  s.resolves.Nodup ∧ (∀ p ∈ s.resolves, p < s.nextPid) ∧
    ∀ t pid, s.anim = some { target := t, callback := .resolveIfFinished pid } →
      pid < s.nextPid ∧ pid ∉ s.resolves

theorem jadd_finite (a b : ℚ) : jadd (.finite a) (.finite b) = .finite (a + b) := rfl

theorem jsub_finite (a b : ℚ) : jsub (.finite a) (.finite b) = .finite (a - b) := rfl

theorem jlt_finite (a b : ℚ) : jlt (.finite a) (.finite b) = decide (a < b) := rfl

theorem jle_finite (a b : ℚ) : jle (.finite a) (.finite b) = decide (a ≤ b) := rfl

theorem jabs_finite (a : ℚ) : jabs (.finite a) = .finite |a| := rfl

theorem jmax_finite (a b : ℚ) : jmax (.finite a) (.finite b) = .finite (max a b) := rfl

theorem jmin_finite (a b : ℚ) : jmin (.finite a) (.finite b) = .finite (min a b) := rfl

theorem jsEq_finite (a b : ℚ) : jsEq (.finite a) (.finite b) = decide (a = b) := rfl

theorem snapStep_finite (v a x : ℚ) :
    snapStep (.finite v) (.finite a) x = .finite (if |v - x| < |v - a| then x else a) := by
  simp only [snapStep, jsub_finite, jabs_finite, jlt_finite, decide_eq_true_eq,
    apply_ite JsNum.finite]

theorem snapStep_posInf (v x : ℚ) : snapStep (.finite v) .posInf x = .finite x := by
  simp [snapStep, jsub, jabs, jlt]

theorem snapFold_finite (v : ℚ) (xs : List ℚ) : ∀ a : ℚ,
    List.foldl (snapStep (.finite v)) (.finite a) xs = .finite (firstMinAux v a xs) := by
  induction xs with
  | nil => intro a; rfl
  | cons x rest ih =>
      intro a
      rw [List.foldl_cons, snapStep_finite]
      simp only [firstMinAux, List.foldl_cons]
      split_ifs with h
      · exact ih x
      · exact ih a

theorem snapFold_posInf (v x : ℚ) (xs : List ℚ) :
    List.foldl (snapStep (.finite v)) .posInf (x :: xs) = .finite (firstMinAux v x xs) := by
  rw [List.foldl_cons, snapStep_posInf, snapFold_finite]

theorem firstMinAux_characterization (v : ℚ) : ∀ (xs : List ℚ) (a : ℚ),
    (firstMinAux v a xs = a ∧ ∀ s ∈ xs, |v - a| ≤ |v - s|) ∨
    (∃ l1 l2, xs = l1 ++ firstMinAux v a xs :: l2 ∧
      |v - firstMinAux v a xs| < |v - a| ∧
      (∀ s ∈ l1, |v - firstMinAux v a xs| < |v - s|) ∧
      (∀ s ∈ l2, |v - firstMinAux v a xs| ≤ |v - s|)) := by
  intro xs
  induction xs with
  | nil =>
      intro a
      left
      exact ⟨rfl, by simp⟩
  | cons x rest ih =>
      intro a
      have hcons : ∀ b : ℚ, firstMinAux v b (x :: rest) =
          firstMinAux v (if |v - x| < |v - b| then x else b) rest := by
        intro b
        simp only [firstMinAux, List.foldl_cons]
      by_cases hP : |v - x| < |v - a|
      · rw [hcons a, if_pos hP]
        rcases ih x with ⟨he, hall⟩ | ⟨l1, l2, heq, hlt, hl1, hl2⟩
        · right
          refine ⟨[], rest, ?_, ?_, ?_, ?_⟩
          · simp [he]
          · rw [he]; exact hP
          · simp
          · rw [he]; exact hall
        · right
          refine ⟨x :: l1, l2, ?_, ?_, ?_, ?_⟩
          · conv_lhs => rw [heq]
            rfl
          · exact lt_trans hlt hP
          · intro s hs
            rcases List.mem_cons.mp hs with h | h
            · rw [h]; exact hlt
            · exact hl1 s h
          · exact hl2
      · rw [hcons a, if_neg hP]
        rcases ih a with ⟨he, hall⟩ | ⟨l1, l2, heq, hlt, hl1, hl2⟩
        · left
          refine ⟨he, ?_⟩
          intro s hs
          rcases List.mem_cons.mp hs with h | h
          · rw [h]; exact le_of_not_lt hP
          · exact hall s h
        · right
          refine ⟨x :: l1, l2, ?_, hlt, ?_, hl2⟩
          · conv_lhs => rw [heq]
            rfl
          · intro s hs
            rcases List.mem_cons.mp hs with h | h
            · rw [h]; exact lt_of_lt_of_le hlt (le_of_not_lt hP)
            · exact hl1 s h

theorem allSnapPoints_ne_nil (c : Config) : allSnapPoints c ≠ [] := by
  simp [allSnapPoints]

theorem zero_mem_allSnapPoints (c : Config) : (0 : ℚ) ∈ allSnapPoints c := by
  simp [allSnapPoints]

theorem closest_isFirstArgmin (c : Config) (v : ℚ) :
    ∃ t : ℚ, closestSnapPoint c (.finite v) = .finite t ∧
      IsFirstArgmin v (allSnapPoints c) t := by
  rcases hx : allSnapPoints c with _ | ⟨x, xs⟩
  · exact absurd hx (allSnapPoints_ne_nil c)
  · have hfold : closestSnapPoint c (.finite v) = .finite (firstMinAux v x xs) := by
      rw [closestSnapPoint, hx, snapFold_posInf]
    refine ⟨firstMinAux v x xs, hfold, ?_⟩
    rcases firstMinAux_characterization v xs x with ⟨he, hall⟩ | ⟨l1, l2, heq, hlt, hl1, hl2⟩
    · refine ⟨[], xs, by simp [he], ?_, by simp⟩
      intro s hs
      rcases List.mem_cons.mp hs with h | h
      · rw [he, h]
      · rw [he]
        exact he ▸ hall s h
    · refine ⟨x :: l1, l2, ?_, ?_, ?_⟩
      · conv_lhs => rw [heq]
        rfl
      · intro s hs
        rcases List.mem_cons.mp hs with h | h
        · rw [h]; exact le_of_lt hlt
        · rw [heq] at h
          rcases List.mem_append.mp h with h | h
          · exact le_of_lt (hl1 s h)
          · rcases List.mem_cons.mp h with h | h
            · rw [h]
            · exact hl2 s h
      · intro s hs
        rcases List.mem_cons.mp hs with h | h
        · rw [h]; exact hlt
        · exact hl1 s h

theorem le_foldl_max (xs : List ℚ) : ∀ a : ℚ, a ≤ xs.foldl max a := by
  induction xs with
  | nil => intro a; simp
  | cons x rest ih =>
      intro a
      rw [List.foldl_cons]
      exact le_trans (le_max_left a x) (ih (max a x))

theorem foldl_jmax_finite (xs : List ℚ) : ∀ a : ℚ,
    xs.foldl (fun acc x => jmax acc (.finite x)) (.finite a) = .finite (xs.foldl max a) := by
  induction xs with
  | nil => intro a; rfl
  | cons x rest ih =>
      intro a
      rw [List.foldl_cons, jmax_finite, List.foldl_cons]
      exact ih (max a x)

theorem mathMaxList_of_pos (xs : List ℚ) (hne : xs ≠ []) (hp : ∀ p ∈ xs, 0 < p) :
    mathMaxList xs = .finite (xs.foldl max 0) ∧ 0 < xs.foldl max 0 := by
  rcases xs with _ | ⟨x, rest⟩
  · exact absurd rfl hne
  · have hx : 0 < x := hp x (by simp)
    have h0 : max (0 : ℚ) x = x := max_eq_right (le_of_lt hx)
    have h1 : mathMaxList (x :: rest) = .finite (rest.foldl max x) := by
      rw [mathMaxList, List.foldl_cons]
      have : jmax .negInf (.finite x) = .finite x := rfl
      rw [this, foldl_jmax_finite]
    have h2 : (x :: rest).foldl max 0 = rest.foldl max x := by
      rw [List.foldl_cons, h0]
    exact ⟨by rw [h1, h2], by rw [h2]; exact lt_of_lt_of_le hx (le_foldl_max rest x)⟩

theorem maxSnapPointLeft_of_pos (c : Config) (hne : c.snapPointsLeft ≠ [])
    (hp : ∀ p ∈ c.snapPointsLeft, 0 < p) :
    maxSnapPointLeft c = .finite (spec_maxSnapLeft c.snapPointsLeft) := by
  obtain ⟨hm, hpos⟩ := mathMaxList_of_pos c.snapPointsLeft hne hp
  rw [maxSnapPointLeft, hm]
  simp [jsOr, jsTruthy, ne_of_gt hpos, jneg, spec_maxSnapLeft]

theorem maxSnapPointRight_of_pos (c : Config) (hne : c.snapPointsRight ≠ [])
    (hp : ∀ p ∈ c.snapPointsRight, 0 < p) :
    maxSnapPointRight c = .finite (spec_maxSnapRight c.snapPointsRight) := by
  obtain ⟨hm, hpos⟩ := mathMaxList_of_pos c.snapPointsRight hne hp
  rw [maxSnapPointRight, hm]
  simp [jsOr, jsTruthy, ne_of_gt hpos, spec_maxSnapRight]

theorem spec_maxSnapRight_pos (c : Config) (hne : c.snapPointsRight ≠ [])
    (hp : ∀ p ∈ c.snapPointsRight, 0 < p) : 0 < spec_maxSnapRight c.snapPointsRight :=
  (mathMaxList_of_pos c.snapPointsRight hne hp).2

theorem spec_maxSnapLeft_neg (c : Config) (hne : c.snapPointsLeft ≠ [])
    (hp : ∀ p ∈ c.snapPointsLeft, 0 < p) : spec_maxSnapLeft c.snapPointsLeft < 0 := by
  have := (mathMaxList_of_pos c.snapPointsLeft hne hp).2
  rw [spec_maxSnapLeft]
  exact neg_lt_zero.mpr this

theorem runCallback_pos (cb : SpringCallback) (b : Bool) (s : RowState) :
    (runCallback cb b s).pos = s.pos := by
  cases cb <;> cases b <;> simp [runCallback]

theorem runCallback_anim (cb : SpringCallback) (b : Bool) (s : RowState) :
    (runCallback cb b s).anim = s.anim := by
  cases cb <;> cases b <;> simp [runCallback]

theorem runCallback_startX (cb : SpringCallback) (b : Bool) (s : RowState) :
    (runCallback cb b s).startX = s.startX := by
  cases cb <;> cases b <;> simp [runCallback]

theorem runCallback_nextPid (cb : SpringCallback) (b : Bool) (s : RowState) :
    (runCallback cb b s).nextPid = s.nextPid := by
  cases cb <;> cases b <;> simp [runCallback]

theorem runCallback_isGestureActive (cb : SpringCallback) (b : Bool) (s : RowState) :
    (runCallback cb b s).isGestureActive = s.isGestureActive := by
  cases cb <;> cases b <;> simp [runCallback]

theorem runCallback_false_resolves (cb : SpringCallback) (s : RowState) :
    (runCallback cb false s).resolves = s.resolves := by
  cases cb <;> simp [runCallback]

theorem runCallback_gesture_resolves (q : JsNum) (b : Bool) (s : RowState) :
    (runCallback (.gestureComplete q) b s).resolves = s.resolves := rfl

theorem runCallback_resolve_true (pid : Nat) (s : RowState) :
    (runCallback (.resolveIfFinished pid) true s).resolves = pid :: s.resolves := rfl

theorem runCallback_resolve_changes (pid : Nat) (b : Bool) (s : RowState) :
    (runCallback (.resolveIfFinished pid) b s).changes = s.changes := by
  cases b <;> rfl

theorem runCallback_resolve_openDirection (pid : Nat) (b : Bool) (s : RowState) :
    (runCallback (.resolveIfFinished pid) b s).openDirection = s.openDirection := by
  cases b <;> rfl

theorem runCallback_gesture_changes (q : JsNum) (b : Bool) (s : RowState) :
    (runCallback (.gestureComplete q) b s).changes = (dirOfSnap q, jabs q) :: s.changes := rfl

theorem runCallback_gesture_openDirection (q : JsNum) (b : Bool) (s : RowState) :
    (runCallback (.gestureComplete q) b s).openDirection = dirOfSnap q := rfl

theorem cancelAnim_of_none (s : RowState) (h : s.anim = Option.none) :
    cancelAnim s = s := by
  simp [cancelAnim, h]

theorem cancelAnim_pos (s : RowState) : (cancelAnim s).pos = s.pos := by
  rcases h : s.anim with _ | a <;> simp [cancelAnim, h, runCallback_pos]

theorem cancelAnim_anim (s : RowState) : (cancelAnim s).anim = Option.none := by
  rcases h : s.anim with _ | a <;> simp [cancelAnim, h, runCallback_anim]

theorem cancelAnim_startX (s : RowState) : (cancelAnim s).startX = s.startX := by
  rcases h : s.anim with _ | a <;> simp [cancelAnim, h, runCallback_startX]

theorem cancelAnim_nextPid (s : RowState) : (cancelAnim s).nextPid = s.nextPid := by
  rcases h : s.anim with _ | a <;> simp [cancelAnim, h, runCallback_nextPid]

theorem cancelAnim_resolves (s : RowState) : (cancelAnim s).resolves = s.resolves := by
  rcases h : s.anim with _ | a <;> simp [cancelAnim, h, runCallback_false_resolves]

theorem setValue_pos (v : JsNum) (s : RowState) : (setValue v s).pos = v := rfl

theorem setValue_anim (v : JsNum) (s : RowState) : (setValue v s).anim = Option.none := by
  show (cancelAnim s).anim = Option.none
  exact cancelAnim_anim s

theorem setValue_startX (v : JsNum) (s : RowState) : (setValue v s).startX = s.startX := by
  show (cancelAnim s).startX = s.startX
  exact cancelAnim_startX s

theorem startSpring_anim (t : JsNum) (cb : SpringCallback) (s : RowState) :
    (startSpring t cb s).anim = some { target := t, callback := cb } := rfl

theorem startSpring_resolves (t : JsNum) (cb : SpringCallback) (s : RowState) :
    (startSpring t cb s).resolves = s.resolves := by
  show (cancelAnim s).resolves = s.resolves
  exact cancelAnim_resolves s

theorem startSpring_nextPid (t : JsNum) (cb : SpringCallback) (s : RowState) :
    (startSpring t cb s).nextPid = s.nextPid := by
  show (cancelAnim s).nextPid = s.nextPid
  exact cancelAnim_nextPid s

theorem openSide_anim (t : JsNum) (s : RowState) :
    (openSide t s).anim = some { target := t, callback := .resolveIfFinished s.nextPid } := rfl

theorem openSide_nextPid (t : JsNum) (s : RowState) :
    (openSide t s).nextPid = s.nextPid + 1 := by
  show (startSpring _ _ _).nextPid = _
  rw [startSpring_nextPid]

theorem openSide_resolves (t : JsNum) (s : RowState) :
    (openSide t s).resolves = s.resolves := by
  show (startSpring _ _ _).resolves = _
  rw [startSpring_resolves]

theorem setValue_resolves (v : JsNum) (s : RowState) :
    (setValue v s).resolves = s.resolves := cancelAnim_resolves s

theorem setValue_nextPid (v : JsNum) (s : RowState) :
    (setValue v s).nextPid = s.nextPid := cancelAnim_nextPid s

theorem goodState_startSpring_gesture (q t : JsNum) (s : RowState) (h : GoodState s) :
    GoodState (startSpring t (.gestureComplete q) s) := by
  obtain ⟨h1, h2, h3⟩ := h
  refine ⟨?_, ?_, ?_⟩
  · rw [startSpring_resolves]; exact h1
  · rw [startSpring_resolves, startSpring_nextPid]; exact h2
  · intro t2 pid hp
    rw [startSpring_anim] at hp
    simp at hp

theorem goodState_openSide (t : JsNum) (s : RowState) (h : GoodState s) :
    GoodState (openSide t s) := by
  obtain ⟨h1, h2, h3⟩ := h
  refine ⟨?_, ?_, ?_⟩
  · rw [openSide_resolves]; exact h1
  · rw [openSide_resolves, openSide_nextPid]
    intro p hp
    exact Nat.lt_succ_of_lt (h2 p hp)
  · intro t2 pid hp
    rw [openSide_anim] at hp
    simp only [Option.some.injEq, Anim.mk.injEq, SpringCallback.resolveIfFinished.injEq] at hp
    obtain ⟨-, hpid⟩ := hp
    rw [openSide_nextPid, openSide_resolves, ← hpid]
    refine ⟨Nat.lt_succ_self _, ?_⟩
    intro hmem
    exact absurd (h2 _ hmem) (Nat.lt_irrefl _)

theorem goodState_step (c : Config) (s : RowState) (e : Event) (h : GoodState s) :
    GoodState (step c s e) := by
  obtain ⟨h1, h2, h3⟩ := h
  cases e with
  | gestureStart => exact ⟨h1, h2, fun t pid hp => h3 t pid hp⟩
  | gestureUpdate t =>
      refine ⟨?_, ?_, ?_⟩
      · show (setValue _ s).resolves.Nodup
        rw [setValue_resolves]; exact h1
      · show ∀ p ∈ (setValue _ s).resolves, p < (setValue _ s).nextPid
        rw [setValue_resolves, setValue_nextPid]; exact h2
      · intro t2 pid hp
        rw [show (step c s (.gestureUpdate t)).anim = Option.none from setValue_anim _ s] at hp
        exact Option.noConfusion hp
  | gestureEnd v =>
      simp only [step]
      split
      · exact ⟨h1, h2, fun t pid hp => h3 t pid hp⟩
      · exact goodState_startSpring_gesture _ _ _ ⟨h1, h2, fun t pid hp => h3 t pid hp⟩
  | imperativeOpen d sp =>
      cases d <;> exact goodState_openSide _ _ ⟨h1, h2, h3⟩
  | imperativeClose => exact goodState_openSide _ _ ⟨h1, h2, h3⟩
  | settle =>
      rcases ha : s.anim with _ | ⟨t, cb⟩
      · simp only [step, ha]
        exact ⟨h1, h2, fun t2 pid hp => (h3 t2 pid (ha ▸ hp))⟩
      · simp only [step, ha]
        cases cb with
        | resolveIfFinished pid =>
            obtain ⟨hlt, hmem⟩ := h3 t pid ha
            refine ⟨?_, ?_, ?_⟩
            · rw [runCallback_resolve_true]
              exact List.nodup_cons.mpr ⟨hmem, h1⟩
            · rw [runCallback_resolve_true, runCallback_nextPid]
              intro p hp
              rcases List.mem_cons.mp hp with h | h
              · rw [h]; exact hlt
              · exact h2 p h
            · intro t2 pid2 hp
              rw [runCallback_anim] at hp
              exact Option.noConfusion hp
        | gestureComplete q =>
            refine ⟨?_, ?_, ?_⟩
            · rw [runCallback_gesture_resolves]; exact h1
            · rw [runCallback_gesture_resolves, runCallback_nextPid]; exact h2
            · intro t2 pid2 hp
              rw [runCallback_anim] at hp
              exact Option.noConfusion hp

theorem goodState_run (c : Config) (evs : List Event) : ∀ s : RowState, GoodState s →
    GoodState (run c s evs) := by
  induction evs with
  | nil => intro s h; exact h
  | cons e rest ih =>
      intro s h
      show GoodState (List.foldl (step c) (step c s e) rest)
      exact ih (step c s e) (goodState_step c s e h)

theorem goodState_init : GoodState initState := by
  refine ⟨List.nodup_nil, ?_, ?_⟩
  · intro p hp
    exact absurd hp (List.not_mem_nil p)
  · intro t pid hp
    exact Option.noConfusion hp

theorem resolves_count_le_one (c : Config) (evs : List Event) (p : Nat) :
    (run c initState evs).resolves.count p ≤ 1 :=
  List.nodup_iff_count_le_one.mp (goodState_run c evs initState goodState_init).1 p

/-- Claim C1 (refuted, code bug): with snapPointsLeft empty, Math.max of the
empty spread is -Infinity, which is truthy, so the or-0 fallback in source
line 129 never fires: maxSnapPointLeft and the travel bound maxTranslateLeft
are Infinity instead of the 0 and -overSwipe the spec derives, and the clamp
bounds are corrupted: a 30 point leftward drag from closed lands at +180. -/
theorem c1_empty_side_extrema :
    maxSnapPointLeft rightCfg = JsNum.posInf ∧
    maxTranslateLeft rightCfg = JsNum.posInf ∧
    spec_maxSnapLeft rightCfg.snapPointsLeft = 0 ∧
    maxSnapPointLeft rightCfg ≠ JsNum.finite (spec_maxSnapLeft rightCfg.snapPointsLeft) ∧
    clampActive rightCfg (.finite (-30)) (.finite 0) = .finite 180 := by
  refine ⟨?_, ?_, ?_, ?_, ?_⟩ <;>
    first
    | exact fun h => nomatch h
    | norm_num [maxSnapPointLeft, maxTranslateLeft, maxSnapPointRight, rightCfg, mathMaxList,
        jsOr, jsTruthy, jneg, jsub, jadd, jmin, jmax, clampActive, maxTranslateRight,
        spec_maxSnapLeft]

/-- Claim C4: on release, the settle target is the first minimizer of the
distance from the velocity-adjusted position over allSnapPoints, scanned as
negated left points, then right points, then the always-present 0; at the
spec's example (offset 120, velocity 500, damping 10) the adjusted position is
170 and the target 160. -/
theorem c4_release_target (c : Config) (p v : ℚ) (hd : c.swipeDamping ≠ 0) :
    (0 : ℚ) ∈ allSnapPoints c ∧
    (∃ t : ℚ,
      closestSnapPoint c (jadd (.finite p) (jdiv (.finite v) (.finite c.swipeDamping)))
        = .finite t ∧
      IsFirstArgmin (p + v / c.swipeDamping) (allSnapPoints c) t) ∧
    jadd (.finite 120) (jdiv (.finite 500) (.finite 10)) = .finite 170 ∧
    closestSnapPoint rightCfg (jadd (.finite 120) (jdiv (.finite 500) (.finite 10)))
      = .finite 160 := by
  refine ⟨zero_mem_allSnapPoints c, ?_, ?_, ?_⟩
  · have h : jadd (.finite p) (jdiv (.finite v) (.finite c.swipeDamping)) =
        .finite (p + v / c.swipeDamping) := by
      simp [jdiv, hd, jadd_finite]
    rw [h]
    exact closest_isFirstArgmin c (p + v / c.swipeDamping)
  · norm_num [jadd, jdiv]
  · norm_num [closestSnapPoint, allSnapPoints, rightCfg, snapStep, jadd, jdiv, jsub,
      jabs, jlt]

/-- Witness for claim C4 at the spec's example configuration. -/
theorem c4_release_target_witness :
    rightCfg.swipeDamping ≠ 0 ∧
    ((0 : ℚ) ∈ allSnapPoints rightCfg ∧
      (∃ t : ℚ,
        closestSnapPoint rightCfg
            (jadd (.finite 120) (jdiv (.finite 500) (.finite rightCfg.swipeDamping)))
          = .finite t ∧
        IsFirstArgmin (120 + 500 / rightCfg.swipeDamping) (allSnapPoints rightCfg) t) ∧
      jadd (.finite 120) (jdiv (.finite 500) (.finite 10)) = .finite 170 ∧
      closestSnapPoint rightCfg (jadd (.finite 120) (jdiv (.finite 500) (.finite 10)))
        = .finite 160) :=
  ⟨by norm_num [rightCfg], c4_release_target rightCfg 120 500 (by norm_num [rightCfg])⟩

/-- Claim C5 is false as stated on the degenerate configuration with both
snap-point lists empty: the update applied from translation 0 and start
offset 0 is -Infinity, strictly below the spec's minOffset of -20. -/
theorem c5_escapes_bounds_counterexample :
    clampActive emptyCfg (.finite 0) (.finite 0) = JsNum.negInf ∧
    (step emptyCfg initState (.gestureUpdate (.finite 0))).pos = JsNum.negInf ∧
    spec_minOffset emptyCfg = -20 ∧ spec_maxOffset emptyCfg = 20 ∧
    jle (.finite (spec_minOffset emptyCfg))
      (clampActive emptyCfg (.finite 0) (.finite 0)) = false := by
  have h : clampActive emptyCfg (.finite 0) (.finite 0) = JsNum.negInf := by
    norm_num [clampActive, emptyCfg, maxTranslateLeft, maxTranslateRight, maxSnapPointLeft,
      maxSnapPointRight, mathMaxList, jsOr, jsTruthy, jneg, jadd, jsub, jmin, jmax]
  refine ⟨h, ?_, ?_, ?_, ?_⟩
  · show clampActive emptyCfg (.finite 0) initState.startX = JsNum.negInf
    exact h
  · norm_num [spec_minOffset, spec_maxSnapLeft, emptyCfg]
  · norm_num [spec_maxOffset, spec_maxSnapRight, emptyCfg]
  · rw [h]
    rfl

/-- A record update writing the position it already holds is the identity. -/
theorem rowState_set_pos_eq (s : RowState) (v : JsNum) (h : s.pos = v) :
    { s with pos := v } = s := by
  cases s
  subst h
  rfl

/-- Claim C5 (amended): when both sides have at least one positive snap point
and overSwipe is nonnegative, the code's travel bounds agree with the spec's
minOffset and maxOffset, and every drag update applies a clamped offset lying
within them, whatever translation is requested. -/
theorem c5_clamped_offset_within_bounds (c : Config)
    (hlne : c.snapPointsLeft ≠ []) (hrne : c.snapPointsRight ≠ [])
    (hlp : ∀ p ∈ c.snapPointsLeft, 0 < p) (hrp : ∀ p ∈ c.snapPointsRight, 0 < p)
    (ho : 0 ≤ c.overSwipe) (t s0 : ℚ) :
    maxTranslateLeft c = .finite (spec_minOffset c) ∧
    maxTranslateRight c = .finite (spec_maxOffset c) ∧
    ∃ r : ℚ, clampActive c (.finite t) (.finite s0) = .finite r ∧
      spec_minOffset c ≤ r ∧ r ≤ spec_maxOffset c ∧
      ∀ s : RowState, s.startX = .finite s0 →
        (step c s (.gestureUpdate (.finite t))).pos = .finite r := by
  have hL : maxTranslateLeft c = .finite (spec_minOffset c) := by
    rw [maxTranslateLeft, maxSnapPointLeft_of_pos c hlne hlp, jsub_finite, spec_minOffset]
  have hR : maxTranslateRight c = .finite (spec_maxOffset c) := by
    rw [maxTranslateRight, maxSnapPointRight_of_pos c hrne hrp, jadd_finite, spec_maxOffset]
  have hlo : spec_minOffset c ≤ spec_maxOffset c := by
    have h1 := spec_maxSnapLeft_neg c hlne hlp
    have h2 := spec_maxSnapRight_pos c hrne hrp
    rw [spec_minOffset, spec_maxOffset]
    linarith
  refine ⟨hL, hR, min (max (spec_minOffset c) (t + s0)) (spec_maxOffset c), ?_, ?_, ?_, ?_⟩
  · rw [clampActive, hL, hR, jadd_finite, jmax_finite, jmin_finite]
  · exact le_min (le_max_left _ _) hlo
  · exact min_le_right _ _
  · intro s hs
    show clampActive c (.finite t) s.startX = _
    rw [hs, clampActive, hL, hR, jadd_finite, jmax_finite, jmin_finite]

/-- Witness for claim C5 at a both-sided configuration and an out-of-bounds
translation request. -/
theorem c5_clamp_witness :
    ∃ r : ℚ, clampActive bothCfg (.finite 1000) (.finite 0) = .finite r ∧
      spec_minOffset bothCfg ≤ r ∧ r ≤ spec_maxOffset bothCfg ∧
      ∀ s : RowState, s.startX = .finite 0 →
        (step bothCfg s (.gestureUpdate (.finite 1000))).pos = .finite r :=
  (c5_clamped_offset_within_bounds bothCfg (by norm_num [bothCfg]) (by norm_num [bothCfg])
    (by norm_num [bothCfg]) (by norm_num [bothCfg]) (by norm_num [bothCfg]) 1000 0).2.2

/-- Claim C8: the derived percentages are pure functions of the position and
configuration: percentOpenLeft is the absolute ratio of offset to
maxSnapPointLeft when the offset is negative and 0 otherwise, symmetrically
for percentOpenRight, so at most one of the two is nonzero. -/
theorem c8_percent_open_formulas (c : Config) (pos : JsNum) :
    percentOpenLeft c pos =
      (if jlt pos (.finite 0) then jabs (jdiv pos (maxSnapPointLeft c)) else .finite 0) ∧
    percentOpenRight c pos =
      (if jlt (.finite 0) pos then jabs (jdiv pos (maxSnapPointRight c)) else .finite 0) ∧
    (percentOpenLeft c pos = .finite 0 ∨ percentOpenRight c pos = .finite 0) := by
  refine ⟨rfl, rfl, ?_⟩
  rcases pos with q | _ | _ | _
  · rcases le_or_lt 0 q with h | h
    · left
      simp [percentOpenLeft, swipingLeft, jlt, not_lt.mpr h]
    · right
      simp [percentOpenRight, swipingRight, jlt, not_lt.mpr (le_of_lt h)]
  · left
    simp [percentOpenLeft, swipingLeft, jlt]
  · right
    simp [percentOpenRight, swipingRight, jlt]
  · left
    simp [percentOpenLeft, swipingLeft, jlt]

/-- Claim C9: a drag update is a pure function of the event translation and
the captured start offset: the new position is the clamp of their sum, and
re-applying the identical update leaves the whole state unchanged. -/
theorem c9_update_pure_idempotent (c : Config) (s : RowState) (t : JsNum) :
    (step c s (.gestureUpdate t)).pos =
      jmin (jmax (maxTranslateLeft c) (jadd t s.startX)) (maxTranslateRight c) ∧
    step c (step c s (.gestureUpdate t)) (.gestureUpdate t) = step c s (.gestureUpdate t) := by
  refine ⟨rfl, ?_⟩
  have h1 : (step c s (.gestureUpdate t)).anim = Option.none := setValue_anim _ s
  have h2 : (step c s (.gestureUpdate t)).startX = s.startX := setValue_startX _ s
  show setValue (clampActive c t (step c s (.gestureUpdate t)).startX)
      (step c s (.gestureUpdate t)) = step c s (.gestureUpdate t)
  rw [h2, setValue, cancelAnim_of_none _ h1]
  exact rowState_set_pos_eq _ _ rfl

/-- Claim C10: the imperative handle's open with direction NONE dispatches to
close(): the snapPoint argument is ignored and the spring targets offset 0
with a freshly allocated promise. -/
theorem c10_open_none_is_close (c : Config) (s : RowState) (sp : Option JsNum) :
    step c s (.imperativeOpen OpenDirection.none sp) = step c s .imperativeClose ∧
    (step c s (.imperativeOpen OpenDirection.none sp)).anim =
      some { target := .finite 0, callback := .resolveIfFinished s.nextPid } :=
  ⟨rfl, openSide_anim _ _⟩

/-- Claim C6: on gesture release with resolved target t, if the position
already equals t the animation is skipped and the settle completion runs
immediately; otherwise the spring runs and the completion fires at its natural
settle; either way it reports direction NONE at 0, RIGHT for positive, LEFT
for negative targets, and the absolute target as the snap distance. -/
theorem c6_release_settle (c : Config) (s : RowState) (v : JsNum) (t : JsNum)
    (ha : s.anim = Option.none)
    (ht : closestSnapPoint c (jadd s.pos (jdiv v (.finite c.swipeDamping))) = t) :
    (jsEq s.pos t = true →
        (step c s (.gestureEnd v)).changes = (dirOfSnap t, jabs t) :: s.changes ∧
        (step c s (.gestureEnd v)).anim = Option.none ∧
        (step c s (.gestureEnd v)).pos = s.pos) ∧
    (jsEq s.pos t = false →
        (step c s (.gestureEnd v)).changes = s.changes ∧
        (step c s (.gestureEnd v)).anim =
          some { target := t, callback := .gestureComplete t } ∧
        (step c (step c s (.gestureEnd v)) .settle).pos = t ∧
        (step c (step c s (.gestureEnd v)) .settle).changes =
          (dirOfSnap t, jabs t) :: s.changes ∧
        (step c (step c s (.gestureEnd v)) .settle).openDirection = dirOfSnap t) ∧
    (t = .finite 0 → dirOfSnap t = OpenDirection.none) ∧
    (∀ q : ℚ, t = .finite q → 0 < q → dirOfSnap t = OpenDirection.right) ∧
    (∀ q : ℚ, t = .finite q → q < 0 → dirOfSnap t = OpenDirection.left) := by
  have key : step c s (.gestureEnd v) =
      (if jsEq s.pos t = true
       then runCallback (.gestureComplete t) true { s with isGestureActive := false }
       else startSpring t (.gestureComplete t) { s with isGestureActive := false }) := by
    show (if jsEq s.pos (closestSnapPoint c (jadd s.pos (jdiv v (.finite c.swipeDamping)))) = true
        then runCallback (.gestureComplete (closestSnapPoint c (jadd s.pos (jdiv v (.finite c.swipeDamping))))) true
          { s with isGestureActive := false }
        else startSpring (closestSnapPoint c (jadd s.pos (jdiv v (.finite c.swipeDamping))))
          (.gestureComplete (closestSnapPoint c (jadd s.pos (jdiv v (.finite c.swipeDamping)))))
          { s with isGestureActive := false }) = _
    rw [ht]
  have hanim1 : ({ s with isGestureActive := false } : RowState).anim = Option.none := ha
  refine ⟨?_, ?_, ?_, ?_, ?_⟩
  · intro hq
    rw [key, if_pos hq]
    exact ⟨runCallback_gesture_changes t true _, ha, rfl⟩
  · intro hq
    rw [key, if_neg (by rw [hq]; exact Bool.false_ne_true)]
    have hss : startSpring t (.gestureComplete t) { s with isGestureActive := false } =
        { s with isGestureActive := false, anim := some { target := t, callback := .gestureComplete t } } := by
      rw [startSpring, cancelAnim_of_none _ hanim1]
    rw [hss]
    refine ⟨rfl, rfl, ?_, ?_, ?_⟩ <;> rfl
  · intro h0
    rw [h0]
    rfl
  · intro q hqt hq
    rw [hqt]
    simp [dirOfSnap, jsEq, jlt, ne_of_gt hq, hq]
  · intro q hqt hq
    rw [hqt]
    simp [dirOfSnap, jsEq, jlt, ne_of_lt hq, not_lt.mpr (le_of_lt hq)]

/-- Witness for claim C6: releasing at offset 60 with velocity 0 under the
spec's example configuration targets 80, springs there, and settles at 80. -/
theorem c6_release_settle_witness :
    jsEq at60.pos (.finite 80) = false ∧
    (step rightCfg at60 (.gestureEnd (.finite 0))).anim =
      some { target := .finite 80, callback := .gestureComplete (.finite 80) } ∧
    (step rightCfg (step rightCfg at60 (.gestureEnd (.finite 0))) .settle).pos =
      .finite 80 ∧
    (step rightCfg (step rightCfg at60 (.gestureEnd (.finite 0))) .settle).openDirection =
      dirOfSnap (.finite 80) ∧
    dirOfSnap (.finite 80) = OpenDirection.right := by
  have ht : closestSnapPoint rightCfg
      (jadd at60.pos (jdiv (.finite 0) (.finite rightCfg.swipeDamping))) = .finite 80 := by
    norm_num [closestSnapPoint, allSnapPoints, rightCfg, at60, snapStep, jadd, jdiv,
      jsub, jabs, jlt]
  have h := c6_release_settle rightCfg at60 (.finite 0) (.finite 80) rfl ht
  have hq : jsEq at60.pos (.finite 80) = false := by norm_num [at60, jsEq]
  obtain ⟨-, hB, -, hpos, -⟩ := h
  obtain ⟨-, h1, h2, -, h3⟩ := hB hq
  exact ⟨hq, h1, h2, h3, hpos 80 rfl (by norm_num)⟩

/-- Claim C7: the pan activation offsets are asymmetric: each side uses the
normal activation threshold when it has snap points or the opposite side is
currently open, and the huge Number.MAX_VALUE sentinel otherwise, so that with
an empty left side and the row closed no realistic leftward travel reaches the
activation window, and any drag that does activate from closed applies a
clamped offset that never goes below 0. -/
theorem c7_activation_gating (c : Config) :
    (∀ dir : OpenDirection, hasLeft c = true ∨ dir = OpenDirection.right →
        activeOffsetL c dir = -c.activationThreshold) ∧
    (∀ dir : OpenDirection, hasLeft c = false → dir ≠ OpenDirection.right →
        activeOffsetL c dir = -numberMaxValue) ∧
    (∀ dir : OpenDirection, hasRight c = true ∨ dir = OpenDirection.left →
        activeOffsetR c dir = c.activationThreshold) ∧
    (∀ dir : OpenDirection, hasRight c = false → dir ≠ OpenDirection.left →
        activeOffsetR c dir = numberMaxValue) ∧
    (c.snapPointsLeft = [] → ∀ t : ℚ, -numberMaxValue < t →
        ¬ t ≤ activeOffsetL c OpenDirection.none) ∧
    (c.snapPointsLeft = [] → (∀ p ∈ c.snapPointsRight, 0 < p) → 0 ≤ c.overSwipe →
        ∀ t : ℚ, |t| < numberMaxValue → panActivates c OpenDirection.none t →
          jle (.finite 0) (clampActive c (.finite t) (.finite 0)) = true) := by
  refine ⟨?_, ?_, ?_, ?_, ?_, ?_⟩
  · intro dir h
    rcases h with h | h <;> simp [activeOffsetL, h]
  · intro dir h1 h2
    simp [activeOffsetL, h1, h2]
  · intro dir h
    rcases h with h | h <;> simp [activeOffsetR, h]
  · intro dir h1 h2
    simp [activeOffsetR, h1, h2]
  · intro hl t ht
    have h1 : activeOffsetL c OpenDirection.none = -numberMaxValue := by
      simp [activeOffsetL, hasLeft, hl]
    rw [h1]
    exact not_le.mpr ht
  · intro hl hrp ho t ht hact
    have hML : maxSnapPointLeft c = .posInf := by
      simp [maxSnapPointLeft, hl, mathMaxList, jsOr, jsTruthy, jneg]
    have hTL : maxTranslateLeft c = .posInf := by
      rw [maxTranslateLeft, hML]
      rfl
    rcases hre : c.snapPointsRight with _ | ⟨x, xs⟩
    · exfalso
      have h1 : activeOffsetL c OpenDirection.none = -numberMaxValue := by
        simp [activeOffsetL, hasLeft, hl]
      have h2 : activeOffsetR c OpenDirection.none = numberMaxValue := by
        simp [activeOffsetR, hasRight, hre]
      have habs := abs_lt.mp ht
      rcases hact with h | h
      · rw [h1] at h
        linarith [habs.1]
      · rw [h2] at h
        linarith [habs.2]
    · have hner : c.snapPointsRight ≠ [] := by rw [hre]; simp
      have hMR : maxTranslateRight c = .finite (spec_maxOffset c) := by
        rw [maxTranslateRight, maxSnapPointRight_of_pos c hner hrp, jadd_finite,
          spec_maxOffset]
      have hpos : 0 < spec_maxSnapRight c.snapPointsRight := spec_maxSnapRight_pos c hner hrp
      have hclamp : clampActive c (.finite t) (.finite 0) = .finite (spec_maxOffset c) := by
        rw [clampActive, hTL, jadd_finite, hMR]
        rfl
      rw [hclamp, jle_finite]
      simp only [decide_eq_true_eq, spec_maxOffset]
      linarith

/-- Witness for claim C7 at the spec's example configuration: the left side is
empty and the row closed, so the left activation offset is the huge sentinel,
a 100 point leftward travel cannot reach it, and an activated rightward drag
from closed stays at or above 0. -/
theorem c7_activation_gating_witness :
    activeOffsetL rightCfg OpenDirection.none = -numberMaxValue ∧
    activeOffsetL rightCfg OpenDirection.right = -rightCfg.activationThreshold ∧
    ¬ (-100 : ℚ) ≤ activeOffsetL rightCfg OpenDirection.none ∧
    jle (.finite 0) (clampActive rightCfg (.finite 100) (.finite 0)) = true := by
  have h := c7_activation_gating rightCfg
  refine ⟨h.2.1 OpenDirection.none (by decide) (by decide),
    h.1 OpenDirection.right (Or.inr rfl), ?_, ?_⟩
  · exact h.2.2.2.2.1 rfl (-100) (by norm_num [numberMaxValue])
  · refine h.2.2.2.2.2 rfl (by norm_num [rightCfg]) (by norm_num [rightCfg]) 100 ?_ ?_
    · rw [abs_of_pos (by norm_num : (0:ℚ) < 100)]
      norm_num [numberMaxValue]
    · right
      simp [activeOffsetR, hasRight, rightCfg]
      norm_num

/-- Claim C2 is false as stated: from a row settled open right at 80, the
imperative close() followed by its natural settle leaves openDirection RIGHT,
not NONE, and records no onChange notification: the imperative paths never
invoke onAnimationEnd. -/
theorem c2_close_counterexample :
    (run bothCfg openRight80 [Event.imperativeClose, Event.settle]).openDirection =
      OpenDirection.right ∧
    (run bothCfg openRight80 [Event.imperativeClose, Event.settle]).openDirection ≠
      OpenDirection.none ∧
    (run bothCfg openRight80 [Event.imperativeClose, Event.settle]).changes = [] := by
  refine ⟨rfl, ?_, rfl⟩
  intro h
  exact OpenDirection.noConfusion ((rfl :
    (run bothCfg openRight80 [Event.imperativeClose, Event.settle]).openDirection =
      OpenDirection.right) ▸ h)

/-- Claim C2 (amended): calling close() on a row open right at 80 with no
gesture or animation active resolves its promise exactly once at the natural
settle, after which the position and percentOpenRight are 0; but the Change
Notifier does not run for imperative calls: openDirection and the onChange
log are unchanged. -/
theorem c2_close_resolves_without_notification (c : Config) (s : RowState)
    (_hg : s.isGestureActive = false) (ha : s.anim = Option.none)
    (_hp : s.pos = .finite 80) (_hd : s.openDirection = OpenDirection.right)
    (hn : s.nextPid ∉ s.resolves) :
    (run c s [Event.imperativeClose, Event.settle]).pos = .finite 0 ∧
    percentOpenRight c (run c s [Event.imperativeClose, Event.settle]).pos = .finite 0 ∧
    (run c s [Event.imperativeClose, Event.settle]).resolves = s.nextPid :: s.resolves ∧
    (run c s [Event.imperativeClose, Event.settle]).resolves.count s.nextPid = 1 ∧
    (run c s [Event.imperativeClose, Event.settle]).openDirection = s.openDirection ∧
    (run c s [Event.imperativeClose, Event.settle]).changes = s.changes := by
  have hopen : step c s .imperativeClose =
      { s with nextPid := s.nextPid + 1,
               anim := some { target := .finite 0,
                              callback := .resolveIfFinished s.nextPid } } := by
    show openSide (.finite 0) s = _
    rw [openSide, startSpring,
      cancelAnim_of_none _ (show ({ s with nextPid := s.nextPid + 1 } : RowState).anim =
        Option.none from ha)]
  have hrun : run c s [Event.imperativeClose, Event.settle] =
      { s with nextPid := s.nextPid + 1, anim := Option.none, pos := .finite 0,
               resolves := s.nextPid :: s.resolves } := by
    show step c (step c s .imperativeClose) .settle = _
    rw [hopen]
    rfl
  rw [hrun]
  refine ⟨rfl, ?_, rfl, ?_, rfl, rfl⟩
  · simp [percentOpenRight, swipingRight, jlt]
  · simp [List.count_cons_self, List.count_eq_zero_of_not_mem hn]

/-- Witness for claim C2 at the concrete open-right row. -/
theorem c2_close_witness :
    openRight80.isGestureActive = false ∧ openRight80.anim = Option.none ∧
    openRight80.pos = .finite 80 ∧ openRight80.openDirection = OpenDirection.right ∧
    openRight80.nextPid ∉ openRight80.resolves ∧
    ((run bothCfg openRight80 [Event.imperativeClose, Event.settle]).pos = .finite 0 ∧
      percentOpenRight bothCfg
        (run bothCfg openRight80 [Event.imperativeClose, Event.settle]).pos = .finite 0 ∧
      (run bothCfg openRight80 [Event.imperativeClose, Event.settle]).resolves =
        openRight80.nextPid :: openRight80.resolves ∧
      (run bothCfg openRight80 [Event.imperativeClose, Event.settle]).resolves.count
        openRight80.nextPid = 1 ∧
      (run bothCfg openRight80 [Event.imperativeClose, Event.settle]).openDirection =
        openRight80.openDirection ∧
      (run bothCfg openRight80 [Event.imperativeClose, Event.settle]).changes =
        openRight80.changes) :=
  ⟨rfl, rfl, rfl, rfl, by simp [openRight80],
    c2_close_resolves_without_notification bothCfg openRight80 rfl rfl rfl rfl
      (by simp [openRight80])⟩

/-- Claim C3 is false as stated: opening right to 80 twice in immediate
succession and letting the row settle naturally resolves only the second
promise; the first, superseded before its natural settle, is never resolved
(its spring callback fired with the finished flag false). -/
theorem c3_superseded_promise_counterexample :
    (run rightCfg initState
      [Event.imperativeOpen OpenDirection.right (some (.finite 80)),
       Event.imperativeOpen OpenDirection.right (some (.finite 80)),
       Event.settle]).resolves = [1] ∧
    (run rightCfg initState
      [Event.imperativeOpen OpenDirection.right (some (.finite 80)),
       Event.imperativeOpen OpenDirection.right (some (.finite 80)),
       Event.settle]).resolves.count 0 = 0 := by
  refine ⟨rfl, ?_⟩
  rw [show (run rightCfg initState
      [Event.imperativeOpen OpenDirection.right (some (.finite 80)),
       Event.imperativeOpen OpenDirection.right (some (.finite 80)),
       Event.settle]).resolves = [1] from rfl]
  rfl

/-- Claim C3 (amended): no promise is ever rejected (the model has no
rejection path, matching the source, whose promise executors only ever call
resolve) and each allocated promise is resolved at most once along any event
sequence; but a superseded call is never resolved: in the double open-right
run only the second promise, identifier 1, is resolved. -/
theorem c3_promises_at_most_once (c : Config) (evs : List Event) (p : Nat) :
    (run c initState evs).resolves.count p ≤ 1 ∧
    (run rightCfg initState
      [Event.imperativeOpen OpenDirection.right (some (.finite 80)),
       Event.imperativeOpen OpenDirection.right (some (.finite 80)),
       Event.settle]).resolves = [1] :=
  ⟨resolves_count_le_one c evs p, rfl⟩
